import Mathlib

/-!
Verification development for the container-execution command builder and
content-addressed artifact writer of the ansible-runner repository.

The Python sources are shallowly embedded:

* `src/ansible_runner/containers/base.py` (`BaseEngine.default_args`,
  `_ensure_path_safe_to_mount`, `_update_volume_mount_paths`,
  `_handle_ansible_cmd_options_bind_mounts`, `_handle_automounts`,
  `_generate_container_auth_dir`, `_get_playbook_path`)
* `src/ansible_runner/_internal/_dump_artifacts.py` (`dump_artifact` and
  the inventory-handling block of `dump_artifacts`)

The filesystem and process environment are explicit data (association lists
of file paths to contents, a list of directories, an environment mapping).
Python exceptions are modelled with `Except`/explicit error results, and
the POSIX path helpers used by the sources (`os.path.join`, `dirname`,
`normpath`, `expanduser`, `expandvars`, `abspath`) are given executable
Lean models that follow the CPython `posixpath` implementations.
-/

set_option autoImplicit false
set_option maxRecDepth 4096

namespace AnsibleRunner

/-- Error outcomes of the embedded code: Python exception classes that the
sources can raise (ConfigurationError from the mount-safety check,
IndexError / ValueError / KeyError from list and dict accesses, and a
generic I/O failure for a file write that raises). -/
inductive Err where
  | configurationError
  | indexError
  | valueError
  | keyError
  | ioError
  deriving DecidableEq, Repr

/-! ## String primitives

Kernel-reducible (structurally recursive) counterparts of `str.startswith`,
`str.endswith`, `str.split`, `"sep".join`, the `in` substring test and list
membership, so that every embedded definition evaluates by `rfl`/`decide`. -/

/-- `str.startswith`. -/
def sStarts (s pre : String) : Bool := pre.data.isPrefixOf s.data

/-- `str.endswith`. -/
def sEnds (s post : String) : Bool := post.data.reverse.isPrefixOf s.data.reverse

/-- Split a character list at a separator character. -/
def charSplit (sep : Char) : List Char → List (List Char)
  | [] => [[]]
  | c :: rest =>
    let r := charSplit sep rest
    if c = sep then [] :: r
    else match r with
      | [] => [[c]]
      | h :: t => (c :: h) :: t

/-- `s.split(sep)` for a single-character separator. -/
def sSplitChar (s : String) (sep : Char) : List String :=
  (charSplit sep s.data).map String.mk

/-- `sep.join(parts)`. -/
def sIntercalate (sep : String) : List String → String
  | [] => ""
  | [x] => x
  | x :: rest => x ++ sep ++ sIntercalate sep rest

/-- Python list membership for string lists. -/
def listHas : List String → String → Bool
  | [], _ => false
  | a :: t, x => a = x || listHas t x

/-! ## POSIX path helpers (models of the CPython `posixpath` functions) -/

/-- `os.path.join(a, b)` for POSIX paths (two arguments): an absolute `b`
discards `a`; otherwise a separator is inserted unless `a` is empty or
already ends with one. -/
def pJoin (a b : String) : String :=
  if sStarts b "/" then b
  else if a = "" || sEnds a "/" then a ++ b
  else a ++ "/" ++ b

/-- `os.path.isabs`. -/
def isAbs (p : String) : Bool := sStarts p "/"

/-- Remove all trailing characters of `l` that belong to `cs`
(`str.rstrip(cs)` over explicit character lists). -/
def rstripChars (l cs : List Char) : List Char :=
  ((l.reverse.dropWhile (fun c => cs.contains c))).reverse

/-- `str.lstrip(chars)`: remove all leading characters that are members of
the character set `chars` (Python set semantics, not prefix removal). -/
def pyLstrip (s chars : String) : String :=
  String.mk (s.data.dropWhile (fun c => chars.data.contains c))

/-- `os.path.dirname` for POSIX paths, following the CPython
implementation: take the prefix up to the last separator, then strip
trailing separators unless the prefix consists solely of separators. -/
def dirname (p : String) : String :=
  let l := p.data
  let i := l.length - (l.reverse.takeWhile (fun c => c ≠ '/')).length
  let head := l.take i
  if head ≠ [] && head.any (fun c => c ≠ '/') then
    String.mk (rstripChars head ['/'])
  else
    String.mk head

/-- `os.path.normpath` for POSIX paths: collapse repeated separators and
`.` components, resolve `..` where possible, preserving the special
double-slash prefix, with `.` for an empty result. -/
def normpath (p : String) : String :=
  if p = "" then "." else
  let initialSlashes : Nat :=
    if sStarts p "/" then
      if sStarts p "//" && !sStarts p "///" then 2 else 1
    else 0
  let comps := sSplitChar p '/' 
  let newComps := comps.foldl (fun acc comp =>
    if comp = "" || comp = "." then acc
    else if comp ≠ ".." || (initialSlashes = 0 && acc = []) ||
            (acc ≠ [] && acc.getLast? = some "..") then
      acc ++ [comp]
    else if acc ≠ [] then acc.dropLast
    else acc) []
  let joined := sIntercalate "/" newComps
  let res := String.mk (List.replicate initialSlashes '/') ++ joined
  if res = "" then "." else res

/-- Character class `\w` with `re.ASCII`, as used by
`posixpath.expandvars`. -/
def isWordChar (c : Char) : Bool :=
  (c.toNat ≥ 97 && c.toNat ≤ 122) || (c.toNat ≥ 65 && c.toNat ≤ 90) ||
  (c.toNat ≥ 48 && c.toNat ≤ 57) || c = '_'

/-- Modelled from the spec: the automount table returned by
`ansible_runner.utils.cli_mounts` is not under `src/`; per the spec it
lists "host SSH/config paths exported from environment variables", i.e.
entries of environment-variable names and explicit src/dest path pairs,
supplied here as data (the `cliMounts` component of `OsEnv`). -/
structure Automount where
  ENVS : List String
  PATHS : List (String × String)
  deriving DecidableEq, Repr

/-- Process environment and host facts consumed by the embedded code:
current working directory (`os.getcwd`), uid (`os.getuid`),
`os.environ`, and the automount table (see `Automount`). -/
structure OsEnv where
  cwd : String
  uid : Nat
  environ : List (String × String)
  cliMounts : List Automount
  deriving DecidableEq, Repr

/-- First-match association-list lookup (Python `dict`-like access for our
explicit mappings; also used for the file table). -/
def lookupStr : List (String × String) → String → Option String
  | [], _ => none
  | kv :: t, k => if kv.1 = k then some kv.2 else lookupStr t k

def envLookup (o : OsEnv) (k : String) : Option String :=
  lookupStr o.environ k

/-- `posixpath.expandvars` on the character list: substitute `$name` and
`$\x7bname\x7d` occurrences that are set in the environment, leaving
unset or unmatched occurrences verbatim (model of the CPython regex
scan).  The `fuel` argument only drives structural recursion; it is
initialised to the length of the list, which bounds the number of scan
steps. -/
def expandvarsAux (o : OsEnv) : Nat → List Char → List Char
  | 0, l => l
  | _ + 1, [] => []
  | fuel + 1, c :: rest =>
    if c = '$' then
      match rest with
      | '{' :: rest2 =>
        let name := rest2.takeWhile (fun x => x ≠ '}')
        let after := rest2.drop name.length
        (match after with
         | '}' :: tail =>
           (match envLookup o (String.mk name) with
            | some v => v.data ++ expandvarsAux o fuel tail
            | none => '$' :: '{' :: name ++ '}' :: expandvarsAux o fuel tail)
         | _ => '$' :: expandvarsAux o fuel rest)
      | _ =>
        let name := rest.takeWhile isWordChar
        if name = [] then '$' :: expandvarsAux o fuel rest
        else
          let tail := rest.drop name.length
          match envLookup o (String.mk name) with
          | some v => v.data ++ expandvarsAux o fuel tail
          | none => '$' :: name ++ expandvarsAux o fuel tail
    else c :: expandvarsAux o fuel rest

def expandvars (o : OsEnv) (s : String) : String :=
  String.mk (expandvarsAux o s.data.length s.data)

/-- `posixpath.expanduser`, modelled for the `$HOME` case: a path starting
with a bare `~` is rewritten against the `HOME` environment variable
(trailing separators of the home directory stripped, an empty result
becoming `/`).  The `~user` form and the password-database fallback when
`HOME` is unset consult the host account database and are modelled as
leaving the path unchanged. -/
def expanduser (o : OsEnv) (p : String) : String :=
  if !sStarts p "~" then p
  else
    let slashIdx := ((p.data.drop 1).takeWhile (fun c => c ≠ '/')).length + 1
    if slashIdx ≠ 1 then p
    else match envLookup o "HOME" with
      | none => p
      | some home =>
        let userhome := String.mk (rstripChars home.data ['/'])
        let res := userhome ++ String.mk (p.data.drop slashIdx)
        if res = "" then "/" else res

/-- `os.path.abspath`: join against the current working directory when
relative, then normalize. -/
def abspath (o : OsEnv) (p : String) : String :=
  if isAbs p then normpath p else normpath (pJoin o.cwd p)

/-- Occurrence of `needle` as a contiguous sublist. -/
def listHasSub (needle : List Char) : List Char → Bool
  | [] => needle.isEmpty
  | c :: rest => needle.isPrefixOf (c :: rest) || listHasSub needle rest

/-- Python `needle in haystack` substring test. -/
def strContains (hay needle : String) : Bool :=
  listHasSub needle.data hay.data

/-- Python `s.split(':', 2)`: at most two splits, the remainder keeping
its separators. -/
def pySplit2 (s : String) : List String :=
  match sSplitChar s ':' with
  | [] => [s]
  | [a] => [a]
  | [a, b] => [a, b]
  | a :: b :: rest => [a, b, sIntercalate ":" rest]

/-- Python `list.index` as an option (`none` models `ValueError`). -/
def pyIndexOf : List String → String → Option Nat
  | [], _ => none
  | a :: t, x => if a = x then some 0 else (pyIndexOf t x).map (fun i => i + 1)

/-- Python `list.insert(i, x)`. -/
def pyInsert : List String → Nat → String → List String
  | l, 0, x => x :: l
  | [], _ + 1, x => [x]
  | a :: l, i + 1, x => a :: pyInsert l i x

/-- Truthiness of an optional string (`None` and `""` are falsy). -/
def truthyOptStr : Option String → Bool
  | none => false
  | some s => s ≠ ""

/-! ## Filesystem model -/

/-- Explicit filesystem state: a table of regular files (path to content)
and a list of directories.  Symbolic links and permissions are outside the
model; `os.chmod` calls in the sources are not tracked. -/
structure FS where
  files : List (String × String)
  dirs : List String
  deriving DecidableEq, Repr

def removeKey : List (String × String) → String → List (String × String)
  | l, k => l.filter (fun kv => kv.1 ≠ k)

def FS.lookupFile (fs : FS) (p : String) : Option String :=
  lookupStr fs.files p

def FS.isFile (fs : FS) (p : String) : Bool :=
  (fs.lookupFile p).isSome

def FS.isDir (fs : FS) (p : String) : Bool :=
  listHas fs.dirs p

/-- `os.path.exists` over the model. -/
def fsExists (fs : FS) (p : String) : Bool :=
  fs.isFile p || fs.isDir p

/-- Create or truncate-and-write a regular file (`open(p, "w")` followed
by a full write). -/
def FS.insertFile (fs : FS) (p c : String) : FS :=
  ⟨(p, c) :: removeKey fs.files p, fs.dirs⟩

/-- `os.remove`. -/
def FS.removeFile (fs : FS) (p : String) : FS :=
  ⟨removeKey fs.files p, fs.dirs⟩

/-- The `if not os.path.exists(path): os.mkdir/os.makedirs(path)` pattern
used by the sources. -/
def mkdirIfMissing (fs : FS) (p : String) : FS :=
  if fsExists fs p then fs else ⟨fs.files, p :: fs.dirs⟩

/-! ## SHA-1 (`hashlib.sha1` over the UTF-8 encoding, hex digest)

Machine words are `Nat` reduced modulo `2 ^ 32` at every step. -/

def u32 (x : Nat) : Nat := x % 4294967296

def rotl32 (n x : Nat) : Nat := u32 (x <<< n) ||| (x >>> (32 - n))

/-- UTF-8 encoding of one scalar value (`str.encode("UTF-8")`). -/
def utf8Char (c : Char) : List Nat :=
  let n := c.toNat
  if n < 128 then [n]
  else if n < 2048 then [192 + n / 64, 128 + n % 64]
  else if n < 65536 then [224 + n / 4096, 128 + n / 64 % 64, 128 + n % 64]
  else [240 + n / 262144, 128 + n / 4096 % 64, 128 + n / 64 % 64, 128 + n % 64]

def utf8Bytes (s : String) : List Nat :=
  (s.data.map utf8Char).flatten

/-- Big-endian 8-byte encoding of the bit length. -/
def be64 (n : Nat) : List Nat :=
  [n >>> 56 % 256, n >>> 48 % 256, n >>> 40 % 256, n >>> 32 % 256,
   n >>> 24 % 256, n >>> 16 % 256, n >>> 8 % 256, n % 256]

/-- Merkle-Damgard padding: `0x80`, zeros to 56 mod 64, 64-bit bit count. -/
def sha1pad (msg : List Nat) : List Nat :=
  let z := (55 + 64 - msg.length % 64) % 64
  msg ++ 128 :: (List.replicate z 0 ++ be64 (8 * msg.length))

/-- Split into chunks of `n` bytes; `fuel` (initialised to the list
length) drives structural recursion. -/
def chunksAux (n : Nat) : Nat → List Nat → List (List Nat)
  | 0, _ => []
  | _ + 1, [] => []
  | fuel + 1, l => l.take n :: chunksAux n fuel (l.drop n)

def word32 (b : List Nat) : Nat :=
  b.foldl (fun a x => a * 256 + x) 0

def blockWords (block : List Nat) : List Nat :=
  (chunksAux 4 block.length block).map word32

/-- Message-schedule extension step on the reversed word list:
`w[i] = rotl1 (w[i-3] xor w[i-8] xor w[i-14] xor w[i-16])`. -/
def extendStep (rev : List Nat) : List Nat :=
  rotl32 1 (rev.getD 2 0 ^^^ rev.getD 7 0 ^^^ rev.getD 13 0 ^^^ rev.getD 15 0) :: rev

def w80 (w16 : List Nat) : List Nat :=
  ((List.range 64).foldl (fun r _ => extendStep r) w16.reverse).reverse

abbrev SHA1State := Nat × Nat × Nat × Nat × Nat

def sha1round (st : SHA1State) (iw : Nat × Nat) : SHA1State :=
  let i := iw.1
  let w := iw.2
  let a := st.1
  let b := st.2.1
  let c := st.2.2.1
  let d := st.2.2.2.1
  let e := st.2.2.2.2
  let f :=
    if i < 20 then (b &&& c) ||| ((b ^^^ 4294967295) &&& d)
    else if i < 40 then b ^^^ c ^^^ d
    else if i < 60 then (b &&& c) ||| (b &&& d) ||| (c &&& d)
    else b ^^^ c ^^^ d
  let k :=
    if i < 20 then 1518500249
    else if i < 40 then 1859775393
    else if i < 60 then 2400959708
    else 3395469782
  (u32 (rotl32 5 a + f + e + k + w), a, rotl32 30 b, c, d)

def processBlock (h : SHA1State) (block : List Nat) : SHA1State :=
  let final := (List.enum (w80 (blockWords block))).foldl sha1round h
  (u32 (h.1 + final.1), u32 (h.2.1 + final.2.1), u32 (h.2.2.1 + final.2.2.1),
   u32 (h.2.2.2.1 + final.2.2.2.1), u32 (h.2.2.2.2 + final.2.2.2.2))

def sha1Init : SHA1State := (1732584193, 4023233417, 2562383102, 271733878, 3285377520)

def sha1Words (s : String) : SHA1State :=
  let bytes := sha1pad (utf8Bytes s)
  (chunksAux 64 bytes.length bytes).foldl processBlock sha1Init

def hexDigitChar (d : Nat) : Char :=
  if d < 10 then Char.ofNat (48 + d) else Char.ofNat (87 + d % 16)

def hex8 (n : Nat) : String :=
  String.mk ((List.range 8).map (fun i => hexDigitChar (n >>> (4 * (7 - i)) % 16)))

/-- `hashlib.sha1(content.encode("UTF-8")).hexdigest()`. -/
def sha1hex (s : String) : String :=
  let h := sha1Words s
  hex8 h.1 ++ hex8 h.2.1 ++ hex8 h.2.2.1 ++ hex8 h.2.2.2.1 ++ hex8 h.2.2.2.2

/-! ## `dump_artifact` (`src/ansible_runner/_internal/_dump_artifacts.py`, lines 79-124) -/

/-- The lock sentinel filename used by `dump_artifact`. -/
def lockName : String := ".artifact_write_lock"

instance {ε α : Type} [DecidableEq ε] [DecidableEq α] : DecidableEq (Except ε α) := fun a b =>
  match a, b with
  | Except.error e, Except.error f =>
    if h : e = f then isTrue (by rw [h]) else isFalse (fun hh => h (Except.error.inj hh))
  | Except.error _, Except.ok _ => isFalse (fun hh => Except.noConfusion hh)
  | Except.ok _, Except.error _ => isFalse (fun hh => Except.noConfusion hh)
  | Except.ok x, Except.ok y =>
    if h : x = y then isTrue (by rw [h]) else isFalse (fun hh => h (Except.ok.inj hh))

/-- Outcome of one `dump_artifact` call: the filesystem after the call,
the returned path (or the propagated exception), and whether the guarded
`open(fn, "w")` write was performed (observable on disk as a fresh
truncate-write, e.g. through the mtime). -/
structure DumpRes where
  fs : FS
  result : Except Err String
  wrote : Bool
  deriving DecidableEq, Repr

/-- Filesystem state after the `makedirs`/`mkstemp` preamble of
`dump_artifact` (lines 93-100): the directory is created if missing and,
for an anonymous artifact, `mkstemp` creates the fresh file empty. -/
def dumpFs (fs0 : FS) (path : String) (filename : Option String) (fresh : String) : FS :=
  match filename with
  | none => (mkdirIfMissing fs0 path).insertFile (pJoin path fresh) ""
  | some _ => mkdirIfMissing fs0 path

/-- The final artifact path `fn` (lines 99-102). -/
def dumpFn (path : String) (filename : Option String) (fresh : String) : String :=
  match filename with
  | none => pJoin path fresh
  | some f => pJoin path f

/-- The write condition of line 110: no file at `fn`, or SHA-1 hex
digests of the new and on-disk contents differ. -/
def dumpNeedWrite (fs : FS) (obj fn : String) : Bool :=
  match fs.lookupFile fn with
  | none => true
  | some contents => sha1hex obj != sha1hex contents

/-- `os.open(lockfp, O_RDWR | O_CREAT)` (line 112): creates the sentinel
empty only when absent. -/
def dumpLocked (fs : FS) (lockfp : String) : FS :=
  if (fs.lookupFile lockfp).isSome then fs else fs.insertFile lockfp ""

/-- `dump_artifact(obj, path, filename)` (lines 79-124).

* `fresh` stands for the unique name chosen by `tempfile.mkstemp` when
  `filename is None`; `mkstemp` creates that file empty.
* `writeOk` is the oracle for whether the guarded `open(fn, "w")` write
  raises (`false` models an I/O failure inside the `try` block; the
  `finally` clause still unlocks and removes the sentinel).

When the condition of line 110 holds (no file at `fn`, or digests
differ), create/lock the sentinel, truncate-write `fn`, and finally
remove the sentinel; otherwise return without touching the file. -/
def dump_artifact (fs0 : FS) (obj : String) (path : String)
    (filename : Option String) (fresh : String) (writeOk : Bool) : DumpRes :=
  if dumpNeedWrite (dumpFs fs0 path filename fresh) obj (dumpFn path filename fresh) then
    if writeOk then
      ⟨((dumpLocked (dumpFs fs0 path filename fresh) (pJoin path lockName)).insertFile
          (dumpFn path filename fresh) obj).removeFile (pJoin path lockName),
        Except.ok (dumpFn path filename fresh), true⟩
    else
      ⟨(dumpLocked (dumpFs fs0 path filename fresh) (pJoin path lockName)).removeFile
          (pJoin path lockName),
        Except.error Err.ioError, false⟩
  else
    ⟨dumpFs fs0 path filename fresh, Except.ok (dumpFn path filename fresh), false⟩

/-! ## Inventory handling of `dump_artifacts` (same file, lines 52-63) -/

/-- A job inventory: either a mapping (here restricted to flat
string-to-string mappings, the shape exercised by the spec) or a string. -/
inductive Inv where
  | map (m : List (String × String))
  | str (s : String)
  deriving DecidableEq, Repr

/-- Modelled from the spec: `ansible_runner.utils.isinventory` is not under
`src/`; per the spec an inventory is a mapping or a string, which is
every value of `Inv`. -/
def isinventory : Inv → Bool := fun _ => true

/-- Python truthiness of the inventory object (`if obj and ...`). -/
def invTruthy : Inv → Bool
  | .map m => !m.isEmpty
  | .str s => s ≠ ""

/-- `json.dumps` for a flat string-to-string mapping (no indent): the
serialization used for a mapping inventory.  Key/value escaping is not
modelled (the embedded strings are assumed free of characters needing
JSON escapes). -/
def jsonDumpsFlat (m : List (String × String)) : String :=
  "\x7b" ++ sIntercalate ", "
    (m.map (fun kv => "\"" ++ kv.1 ++ "\": \"" ++ kv.2 ++ "\"")) ++ "\x7d"

/-- The inventory-handling block of `dump_artifacts` (lines 52-63):
given `config.inventory` and the private data directory, returns the
updated filesystem and the new value of `config.inventory`.  `writeOk`
is forwarded to `dump_artifact`; an exception there propagates. -/
def dump_artifacts_inventory (fs : FS) (inventory : Option Inv)
    (private_data_dir : String) (writeOk : Bool) : Except Err (FS × Option Inv) :=
  match inventory with
  | none => Except.ok (fs, none)
  | some obj =>
    if invTruthy obj && isinventory obj then
      let path := pJoin private_data_dir "inventory"
      match obj with
      | .map m =>
        let r := dump_artifact fs (jsonDumpsFlat m) path (some "hosts.json") "" writeOk
        (match r.result with
         | Except.error e => Except.error e
         | Except.ok p => Except.ok (r.fs, some (Inv.str p)))
      | .str s =>
        if !(fsExists fs (pJoin path s)) then
          let r := dump_artifact fs s path (some "hosts") "" writeOk
          (match r.result with
           | Except.error e => Except.error e
           | Except.ok p => Except.ok (r.fs, some (Inv.str p)))
        else if isAbs s then Except.ok (fs, some (Inv.str s))
        else Except.ok (fs, some (Inv.str (pJoin path s)))
    else Except.ok (fs, some obj)

/-! ## `containers/base.py`: mount safety and mount planning -/

/-- `BaseEngine._ensure_path_safe_to_mount` (lines 140-144): reduce a path
naming an existing file to its directory, append a trailing separator
(`os.path.join(path, "")`), and fail on the three forbidden roots. -/
def ensure_path_safe_to_mount (fs : FS) (path : String) : Except Err Unit :=
  let p := if fs.isFile path then dirname path else path
  if pJoin p "" = "/" || pJoin p "" = "/home/" || pJoin p "" = "/usr/" then
    Except.error Err.configurationError
  else Except.ok ()

/-- The formatted-volume-string computation of
`BaseEngine._update_volume_mount_paths` (lines 175-215): `Except.ok none`
models the silent skip for a missing source, `Except.error` a
`ConfigurationError` from the safety checks, and `Except.ok (some vmp)`
the `"<src_dir>:<dst_dir>[<labels>]"` string that lines 217-219 then
deduplicate against the accumulated argument list. -/
def formatMount (o : OsEnv) (fs : FS) (container_workdir : Option String)
    (src_mount_path : Option String) (dst_mount_path : Option String)
    (labels : Option String) : Except Err (Option String) :=
  match src_mount_path with
  | none => Except.ok none
  | some src =>
    if !(fsExists fs src) then Except.ok none
    else
      let src_path := abspath o (expanduser o (expandvars o src))
      let dst_path :=
        match dst_mount_path with
        | none => src_path
        | some dst =>
          if truthyOptStr container_workdir && !(isAbs dst) then
            abspath o (expanduser o (expandvars o (pJoin (container_workdir.getD "") dst)))
          else abspath o (expanduser o (expandvars o dst))
      let src_dir := pJoin (if fs.isDir src_path then src_path else dirname src_path) ""
      let dst_dir := pJoin (if fs.isDir src_path then dst_path else dirname dst_path) ""
      match ensure_path_safe_to_mount fs src_dir with
      | Except.error e => Except.error e
      | Except.ok _ =>
        match ensure_path_safe_to_mount fs dst_dir with
        | Except.error e => Except.error e
        | Except.ok _ =>
          let vmp := src_dir ++ ":" ++ dst_dir
          let vmp :=
            match labels with
            | some l =>
              if l ≠ "" then (if !sStarts l ":" then vmp ++ ":" ++ l else vmp ++ l)
              else vmp
            | none => vmp
          Except.ok (some vmp)

/-- `BaseEngine._update_volume_mount_paths` (lines 168-219): compute the
formatted string and append `-v <vmp>` unless already present. -/
def update_volume_mount_paths (o : OsEnv) (fs : FS) (container_workdir : Option String)
    (args_list : List String) (src_mount_path : Option String)
    (dst_mount_path : Option String) (labels : Option String) :
    Except Err (List String) :=
  match formatMount o fs container_workdir src_mount_path dst_mount_path labels with
  | Except.error e => Except.error e
  | Except.ok none => Except.ok args_list
  | Except.ok (some vmp) =>
    Except.ok (if listHas args_list vmp then args_list else args_list ++ ["-v", vmp])

/-! ## `_get_playbook_path` (lines 301-331) -/

def inventory_file_options : List String := ["-i", "--inventory", "--inventory-file"]
def vault_file_options : List String := ["--vault-password-file", "--vault-pass-file"]
def private_key_file_options : List String := ["--private-key", "--key-file"]
def optional_mount_args : List String :=
  inventory_file_options ++ vault_file_options ++ private_key_file_options

/-- The inventory-stripping loop of `_get_playbook_path` (lines 304-313):
iterate over the original tokens, removing each inventory flag and its
following value from the book-keeping copy.  `Except.ok none` models the
`return None` taken when the second `pop` raises IndexError;
`Except.error Err.valueError` an (uncaught) `list.index` failure. -/
def gppLoop : List String → List String → Except Err (Option (List String))
  | [], copy => Except.ok (some copy)
  | arg :: rest, copy =>
    if listHas inventory_file_options arg then
      match pyIndexOf copy arg with
      | none => Except.error Err.valueError
      | some i =>
        let c1 := copy.eraseIdx i
        match c1[i]? with
        | none => Except.ok none
        | some _ => gppLoop rest (c1.eraseIdx i)
    else gppLoop rest copy

/-- The fallback scan of `_get_playbook_path` (lines 324-329) over
`copy[1:]`: find the first token whose predecessor in the book-keeping
copy is not flag-like.  Python `copy[index - 1]` uses a negative index
(the last element) when `index` is 0. -/
def gppElseLoop (copy : List String) : List String → Except Err String
  | [] => Except.ok ""
  | arg :: rest =>
    match arg.data.head? with
    | none => Except.error Err.indexError
    | some a0 =>
      if a0 = '-' then gppElseLoop copy rest
      else
        match pyIndexOf copy arg with
        | none => Except.error Err.valueError
        | some i =>
          let j := if i = 0 then copy.length - 1 else i - 1
          match copy[j]? with
          | none => Except.error Err.indexError
          | some prev =>
            match prev.data.head? with
            | none => Except.error Err.indexError
            | some p0 => if p0 ≠ '-' then Except.ok arg else gppElseLoop copy rest

/-- `BaseEngine._get_playbook_path` (lines 301-331).  `Except.ok none`
models a `None` return, `Except.ok (some s)` a string return (possibly
`""`, the initial `_playbook`, which is falsy for the caller);
`Except.error Err.indexError` the uncaught `copy[0]` / string indexing
failures. -/
def get_playbook_path (cmdline_args : List String) : Except Err (Option String) :=
  match gppLoop cmdline_args cmdline_args with
  | Except.error e => Except.error e
  | Except.ok none => Except.ok none
  | Except.ok (some copy) =>
    if copy.length = 1 then Except.ok (some (copy.headD ""))
    else
      match copy[0]? with
      | none => Except.error Err.indexError
      | some first =>
        match first.data.head? with
        | none => Except.error Err.indexError
        | some c0 =>
          if c0 ≠ '-' then Except.ok (some first)
          else
            match gppElseLoop copy (copy.drop 1) with
            | Except.error e => Except.error e
            | Except.ok pb => Except.ok (some pb)

/-! ## Job configuration (the `BaseConfig` fields read by the engine) -/

/-- `container_auth_data` (`dict[str, str]` with optional entries; in the
exercised configurations `verify_ssl` carries a boolean, and the
`is False` test in the source only fires on the boolean `False`,
modelled as `some false`). -/
structure AuthData where
  host : Option String
  username : Option String
  password : Option String
  verify_ssl : Option Bool
  deriving DecidableEq, Repr

/-- `BaseExecutionMode`. -/
inductive ExecMode where
  | NONE
  | ANSIBLE_COMMANDS
  | GENERIC_COMMANDS
  deriving DecidableEq, Repr

structure Config where
  process_isolation_executable : String
  runner_mode : String
  input_fd : Bool
  container_workdir : Option String
  host_cwd : Option String
  private_data_dir : String
  artifact_dir : String
  container_name : String
  container_image : String
  container_options : List String
  container_volume_mounts : List String
  container_auth_data : Option AuthData
  command : List String
  ident : String
  env : List (String × String)
  cwd : String
  registry_auth_path : String
  deriving DecidableEq, Repr

/-- Python `f"{x}"` over an optional string (`None` prints as `"None"`). -/
def pyShow : Option String → String
  | none => "None"
  | some s => s

/-- The key under which `json.dumps` serializes an optional-string dict
key (`None` becomes `"null"`). -/
def jsonKeyOf : Option String → String
  | none => "null"
  | some s => s

/-- Dict assignment `d[k] = v`. -/
def envSet (l : List (String × String)) (k v : String) : List (String × String) :=
  (k, v) :: removeKey l k

/-! ## `_generate_container_auth_dir` (lines 264-299) -/

/-- `base64.b64encode` alphabet. -/
def b64Alphabet (i : Nat) : Char :=
  if i < 26 then Char.ofNat (65 + i)
  else if i < 52 then Char.ofNat (97 + (i - 26))
  else if i < 62 then Char.ofNat (48 + (i - 52))
  else if i = 62 then '+' else '/'

def b64encodeBytes : Nat → List Nat → List Char
  | 0, _ => []
  | _ + 1, [] => []
  | _ + 1, [a] =>
    [b64Alphabet (a / 4), b64Alphabet (a % 4 * 16), '=', '=']
  | _ + 1, [a, b] =>
    [b64Alphabet (a / 4), b64Alphabet (a % 4 * 16 + b / 16), b64Alphabet (b % 16 * 4), '=']
  | fuel + 1, a :: b :: c :: rest =>
    b64Alphabet (a / 4) :: b64Alphabet (a % 4 * 16 + b / 16) ::
    b64Alphabet (b % 16 * 4 + c / 64) :: b64Alphabet (c % 64) ::
    b64encodeBytes fuel rest

/-- `b64encode(s.encode("UTF-8")).decode("UTF-8")`. -/
def b64encode (s : String) : String :=
  let bs := utf8Bytes s
  String.mk (b64encodeBytes bs.length bs)

/-- `json.dumps({"auths": {host: {"auth": tok}}}, indent=4)` (string
escaping of `host`/`tok` not modelled; they are assumed free of JSON
escapes). -/
def authJsonContent (host tok : String) : String :=
  "\x7b\n    \"auths\": \x7b\n        \"" ++ host ++
  "\": \x7b\n            \"auth\": \"" ++ tok ++
  "\"\n        \x7d\n    \x7d\n\x7d"

/-- The `registries.conf` body written when TLS verification is
disabled. -/
def registriesConfContent (host : String) : String :=
  "[[registry]]\nlocation = \"" ++ host ++ "\"\ninsecure = true"

/-- `BaseEngine._generate_container_auth_dir` (lines 264-299).  `tmpdir`
stands for the fresh directory returned by `tempfile.mkdtemp` (whose
prefix is `registry_auth_prefix` + ident + `_`; the prefix constant and
`register_for_cleanup` live outside `src/` and outside the filesystem
model).  Returns the filesystem after the writes, the engine-dependent
auth path, and the optional `registries.conf` path. -/
def generate_container_auth_dir (fs : FS) (auth : AuthData) (_ident : String)
    (process_isolation_executable : String) (tmpdir : String) :
    FS × String × Option String :=
  let token := pyShow auth.username ++ ":" ++ pyShow auth.password
  let encoded := authJsonContent (jsonKeyOf auth.host) (b64encode token)
  let fs : FS := ⟨fs.files, tmpdir :: fs.dirs⟩
  let auth_filename :=
    if process_isolation_executable = "docker" then "config.json" else "auth.json"
  let registry_auth_path := pJoin tmpdir auth_filename
  let fs := fs.insertFile registry_auth_path encoded
  let conf : FS × Option String :=
    if auth.verify_ssl = some false then
      let rc := pJoin tmpdir "registries.conf"
      (fs.insertFile rc (registriesConfContent (pyShow auth.host)), some rc)
    else (fs, none)
  let auth_path :=
    if process_isolation_executable = "docker" then tmpdir else registry_auth_path
  (conf.1, auth_path, conf.2)

/-! ## `_handle_ansible_cmd_options_bind_mounts` (lines 221-262) -/

/-- The playbook phase (lines 234-239): scan `config.command` for a value
containing `"ansible-playbook"`; on the first hit run
`_get_playbook_path` and, if the result is truthy, mount it and stop. -/
def playbookLoop (o : OsEnv) (fs : FS) (container_workdir : Option String)
    (cmdline_args : List String) (acc : List String) :
    List String → Except Err (List String)
  | [] => Except.ok acc
  | value :: rest =>
    if strContains value "ansible-playbook" then
      match get_playbook_path cmdline_args with
      | Except.error e => Except.error e
      | Except.ok pbp =>
        if truthyOptStr pbp then
          update_volume_mount_paths o fs container_workdir acc
            (some (pbp.getD "")) none none
        else playbookLoop o fs container_workdir cmdline_args acc rest
    else playbookLoop o fs container_workdir cmdline_args acc rest

/-- The flag/value consumption loop (lines 241-262): iterate over the
original tokens; for each recognized flag, look it up in the working
copy, read the original token after that index (an uncaught IndexError
when absent), pop flag and value from the copy (a caught IndexError on
the second pop aborts inference), skip inventory values ending in a
comma, and mount every other value. -/
def optionLoop (o : OsEnv) (fs : FS) (container_workdir : Option String)
    (orig : List String) : List String → List String → List String →
    Except Err (List String)
  | [], _copy, acc => Except.ok acc
  | arg :: rest, copy, acc =>
    if listHas optional_mount_args arg then
      match pyIndexOf copy arg with
      | none => Except.error Err.valueError
      | some i =>
        match orig[i + 1]? with
        | none => Except.error Err.indexError
        | some _ =>
          let c1 := copy.eraseIdx i
          match c1[i]? with
          | none => Except.ok acc
          | some value =>
            let c2 := c1.eraseIdx i
            if listHas inventory_file_options arg && sEnds value "," then
              optionLoop o fs container_workdir orig rest c2 acc
            else
              match update_volume_mount_paths o fs container_workdir acc
                      (some value) none none with
              | Except.error e => Except.error e
              | Except.ok acc2 => optionLoop o fs container_workdir orig rest c2 acc2
    else optionLoop o fs container_workdir orig rest copy acc

/-- `BaseEngine._handle_ansible_cmd_options_bind_mounts` (lines 221-262). -/
def handle_ansible_cmd_options_bind_mounts (o : OsEnv) (fs : FS) (cfg : Config)
    (args_list cmdline_args : List String) : Except Err (List String) :=
  if cmdline_args.isEmpty then Except.ok args_list
  else if listHas cmdline_args "-h" || listHas cmdline_args "--help" then
    Except.ok args_list
  else
    match playbookLoop o fs cfg.container_workdir cmdline_args args_list cfg.command with
    | Except.error e => Except.error e
    | Except.ok acc =>
      optionLoop o fs cfg.container_workdir cmdline_args cmdline_args cmdline_args acc

/-! ## `_handle_automounts` (lines 146-166)

The automount table itself (`ansible_runner.utils.cli_mounts`) is not
under `src/`; it is modelled from the spec ("host SSH/config paths
exported from environment variables") as the `cliMounts` component of
`OsEnv`: a list of entries each carrying environment-variable names and
explicit src/dest path pairs. -/

/-- The ENVS loop: for every listed variable present in `os.environ`,
remap a path under `$HOME` (or `~`) to `/home/runner/...` via
`str.lstrip` (character-set semantics), mount it when it exists, and
always export `-e VAR=dest`. -/
def automountEnvLoop (o : OsEnv) (fs : FS) (container_workdir : Option String)
    (acc : List String) : List String → Except Err (List String)
  | [] => Except.ok acc
  | env :: rest =>
    match envLookup o env with
    | none => automountEnvLoop o fs container_workdir acc rest
    | some v =>
      if fsExists fs v then
        match envLookup o "HOME" with
        | none => Except.error Err.keyError
        | some home =>
          let dest :=
            if sStarts v home then "/home/runner/" ++ pyLstrip v home
            else if sStarts v "~" then "/home/runner/" ++ pyLstrip v "~/"
            else v
          match update_volume_mount_paths o fs container_workdir acc
                  (some v) (some dest) none with
          | Except.error e => Except.error e
          | Except.ok acc2 =>
            automountEnvLoop o fs container_workdir
              (acc2 ++ ["-e", env ++ "=" ++ dest]) rest
      else
        automountEnvLoop o fs container_workdir (acc ++ ["-e", env ++ "=" ++ v]) rest

/-- The PATHS loop: mount each existing source path at its fixed
destination. -/
def automountPathLoop (o : OsEnv) (fs : FS) (container_workdir : Option String)
    (acc : List String) : List (String × String) → Except Err (List String)
  | [] => Except.ok acc
  | (src, dst) :: rest =>
    if fsExists fs src then
      match update_volume_mount_paths o fs container_workdir acc
              (some src) (some dst) none with
      | Except.error e => Except.error e
      | Except.ok acc2 => automountPathLoop o fs container_workdir acc2 rest
    else automountPathLoop o fs container_workdir acc rest

def automountsLoop (o : OsEnv) (fs : FS) (container_workdir : Option String)
    (acc : List String) : List Automount → Except Err (List String)
  | [] => Except.ok acc
  | am :: rest =>
    match automountEnvLoop o fs container_workdir acc am.ENVS with
    | Except.error e => Except.error e
    | Except.ok acc1 =>
      match automountPathLoop o fs container_workdir acc1 am.PATHS with
      | Except.error e => Except.error e
      | Except.ok acc2 => automountsLoop o fs container_workdir acc2 rest

/-- `BaseEngine._handle_automounts` (lines 146-166). -/
def handle_automounts (o : OsEnv) (fs : FS) (container_workdir : Option String)
    (acc : List String) : Except Err (List String) :=
  automountsLoop o fs container_workdir acc o.cliMounts

/-! ## `default_args` (lines 30-134) -/

/-- Lines 60-61: in `ANSIBLE_COMMANDS` mode run the command-line bind
mount inference, otherwise leave the argument list alone. -/
def cmdOptionsStep (o : OsEnv) (fs : FS) (cfg : Config)
    (new_args : List String) (execution_mode : ExecMode)
    (cmdline_args : List String) : Except Err (List String) :=
  if execution_mode = ExecMode.ANSIBLE_COMMANDS then
    handle_ansible_cmd_options_bind_mounts o fs cfg new_args cmdline_args
  else Except.ok new_args

/-- The `container_volume_mounts` loop (lines 105-112): split each
mapping on `:` (at most twice), safety-check the source, and mount.
Accessing the destination component of a separator-free mapping raises
an (uncaught) IndexError. -/
def volumeMountsLoop (o : OsEnv) (fs : FS) (cfg : Config)
    (acc : List String) : List String → Except Err (List String)
  | [] => Except.ok acc
  | mapping :: rest =>
    let parts := pySplit2 mapping
    match ensure_path_safe_to_mount fs (parts.headD "") with
    | Except.error e => Except.error e
    | Except.ok _ =>
      let labels := if parts.length = 3 then some (":" ++ (parts.getD 2 "")) else none
      match parts[1]? with
      | none => Except.error Err.indexError
      | some dst =>
        match update_volume_mount_paths o fs cfg.container_workdir acc
                (some (parts.headD "")) (some dst) labels with
        | Except.error e => Except.error e
        | Except.ok acc2 => volumeMountsLoop o fs cfg acc2 rest

/-- `BaseEngine.default_args` (lines 30-134), producing the updated
filesystem (subdirectory creation, auth-dir writes), the updated config
(`cwd`, `registry_auth_path`, `env`) and the final argument vector.
`authTmp` stands for the fresh directory `tempfile.mkdtemp` would return
if registry auth data is present. -/
def default_args (o : OsEnv) (fs : FS) (cfg : Config) (args : List String)
    (execution_mode : ExecMode) (cmdline_args : List String) (authTmp : String) :
    Except Err (FS × Config × List String) := do
  let new_args := [cfg.process_isolation_executable, "run", "--rm"]
  let new_args :=
    if cfg.runner_mode = "pexpect" || cfg.input_fd then new_args ++ ["--tty"]
    else new_args
  let new_args := new_args ++ ["--interactive"]
  let (new_args, workdir) ←
    if truthyOptStr cfg.container_workdir then
      pure (new_args, cfg.container_workdir.getD "")
    else
      match cfg.host_cwd with
      | some hc =>
        if fsExists fs hc then do
          let _ ← ensure_path_safe_to_mount fs hc
          let na ← update_volume_mount_paths o fs cfg.container_workdir new_args
                     (some hc) none none
          pure (na, hc)
        else pure (new_args, "/runner/project")
      | none => pure (new_args, "/runner/project")
  let cfg := { cfg with cwd := workdir }
  let new_args := new_args ++ ["--workdir", workdir]
  let (fs, new_args) ←
    if execution_mode ≠ ExecMode.NONE then do
      let new_args ← cmdOptionsStep o fs cfg new_args execution_mode cmdline_args
      let new_args ← handle_automounts o fs cfg.container_workdir new_args
      let new_args :=
        if strContains cfg.process_isolation_executable "podman" then
          new_args ++ ["--group-add=root", "--ipc=host"]
        else new_args
      let _ ← ensure_path_safe_to_mount fs cfg.private_data_dir
      let fs := mkdirIfMissing fs (pJoin cfg.private_data_dir "project")
      let fs := mkdirIfMissing fs (pJoin cfg.private_data_dir "artifacts")
      let new_args ← update_volume_mount_paths o fs cfg.container_workdir new_args
                       (some (cfg.private_data_dir ++ "/artifacts"))
                       (some "/runner/artifacts") (some ":Z")
      pure (fs, new_args)
    else
      pure (mkdirIfMissing fs (pJoin cfg.private_data_dir "artifacts"), new_args)
  let new_args ← update_volume_mount_paths o fs cfg.container_workdir new_args
                   (some cfg.private_data_dir) (some "/runner") (some ":Z")
  let (fs, cfg, new_args) ←
    match cfg.container_auth_data with
    | none => pure (fs, cfg, new_args)
    | some auth => do
      let r := generate_container_auth_dir fs auth cfg.ident
                 cfg.process_isolation_executable authTmp
      let fs := r.1
      let cfg := { cfg with registry_auth_path := r.2.1 }
      let new_args ←
        if strContains cfg.process_isolation_executable "podman" then
          pure (new_args ++ ["--authfile=" ++ cfg.registry_auth_path])
        else
          match pyIndexOf new_args cfg.process_isolation_executable with
          | none => Except.error Err.valueError
          | some i => pure (pyInsert new_args (i + 1) ("--config=" ++ cfg.registry_auth_path))
      let cfg :=
        match r.2.2 with
        | some c =>
          { cfg with env := envSet (envSet cfg.env "CONTAINERS_REGISTRIES_CONF" c)
                              "REGISTRIES_CONFIG_PATH" c }
        | none => cfg
      pure (fs, cfg, new_args)
  let new_args ← volumeMountsLoop o fs cfg new_args cfg.container_volume_mounts
  let new_args := new_args ++ ["--env-file", pJoin cfg.artifact_dir "env.list"]
  let new_args :=
    if strContains cfg.process_isolation_executable "podman" then new_args ++ ["--quiet"]
    else new_args
  let new_args :=
    if strContains cfg.process_isolation_executable "docker" then
      new_args ++ ["--user=" ++ toString o.uid]
    else new_args
  let new_args := new_args ++ ["--name", cfg.container_name]
  let new_args := new_args ++ cfg.container_options
  let new_args := new_args ++ [cfg.container_image]
  let new_args := new_args ++ args
  pure (fs, cfg, new_args)

/-- Final argument vector of a successful `default_args` run (empty on a
raised exception); used to state concrete facts about build outputs. -/
def okArgs : Except Err (FS × Config × List String) → List String
  | Except.ok r => r.2.2
  | Except.error _ => []

/-- Projections of the inventory-handling outcome, for stating facts
about `dump_artifacts_inventory` runs. -/
def invOut : Except Err (FS × Option Inv) → Option Inv
  | Except.ok r => r.2
  | Except.error _ => none

def fsOut : Except Err (FS × Option Inv) → FS
  | Except.ok r => r.1
  | Except.error _ => ⟨[], []⟩

/-- A sample job configuration for concrete runs of the builder
(podman engine, no auth, no extra mounts). -/
def cfgDemo : Config := {
  process_isolation_executable := "podman"
  runner_mode := "subprocess"
  input_fd := false
  container_workdir := none
  host_cwd := none
  private_data_dir := "/data"
  artifact_dir := "/data/artifacts/j1"
  container_name := "ansible_runner_j1"
  container_image := "img:latest"
  container_options := []
  container_volume_mounts := []
  container_auth_data := none
  command := ["ansible-playbook", "play.yml"]
  ident := "j1"
  env := []
  cwd := ""
  registry_auth_path := "" }

/-- A sample host environment: one automount entry (an SSH path pair, per
the spec description of `cli_mounts`). -/
def osDemo : OsEnv := ⟨"/w", 1000, [("HOME", "/root")], [⟨[], [("/ssh", "/ssh")]⟩]⟩

/-- A sample filesystem for concrete runs. -/
def fsDemo : FS := ⟨[("/w/inv.yml", "x")], ["/w", "/data", "/ssh"]⟩

/-! # Lemmas about the filesystem model -/

theorem lookupStr_removeKey (l : List (String × String)) (k q : String) :
    lookupStr (removeKey l k) q = if q = k then none else lookupStr l q := by
  induction l with
  | nil => simp [removeKey, lookupStr]
  | cons a t ih =>
    by_cases hak : a.1 = k
    · have hstep : removeKey (a :: t) k = removeKey t k := by
        simp [removeKey, List.filter_cons, hak]
      rw [hstep, ih]
      by_cases hqk : q = k
      · simp [hqk]
      · have haq : ¬a.1 = q := by rw [hak]; intro h; exact hqk h.symm
        simp [hqk, lookupStr, haq]
    · have hstep : removeKey (a :: t) k = a :: removeKey t k := by
        simp [removeKey, List.filter_cons, hak]
      rw [hstep]
      by_cases haq : a.1 = q
      · have hqk : ¬q = k := by rw [← haq]; exact hak
        simp [lookupStr, haq, hqk]
      · simp [lookupStr, haq, ih]

theorem lookupFile_insertFile (fs : FS) (p c q : String) :
    (fs.insertFile p c).lookupFile q = if q = p then some c else fs.lookupFile q := by
  simp only [FS.insertFile, FS.lookupFile, lookupStr]
  by_cases h : q = p
  · simp [h]
  · simp [h, lookupStr_removeKey]
    intro hh; exact absurd hh.symm h

theorem lookupFile_removeFile (fs : FS) (p q : String) :
    (fs.removeFile p).lookupFile q = if q = p then none else fs.lookupFile q := by
  simp only [FS.removeFile, FS.lookupFile, lookupStr_removeKey]

theorem files_mkdirIfMissing (fs : FS) (p : String) :
    (mkdirIfMissing fs p).files = fs.files := by
  unfold mkdirIfMissing; split <;> rfl

theorem lookupFile_mkdirIfMissing (fs : FS) (p q : String) :
    (mkdirIfMissing fs p).lookupFile q = fs.lookupFile q := by
  simp only [FS.lookupFile, files_mkdirIfMissing]

theorem mkdirIfMissing_of_exists (fs : FS) (p : String) (h : fsExists fs p = true) :
    mkdirIfMissing fs p = fs := by
  simp [mkdirIfMissing, h]

/-! Behaviour of `dump_artifact` with a caller-specified filename, split
out as lemmas shared by several claim proofs. -/

theorem dump_artifact_fresh (fs : FS) (c d f : String)
    (hne : pJoin d f ≠ pJoin d lockName) (h0 : fs.lookupFile (pJoin d f) = none) :
    (dump_artifact fs c d (some f) "" true).result = Except.ok (pJoin d f) ∧
    (dump_artifact fs c d (some f) "" true).wrote = true ∧
    (dump_artifact fs c d (some f) "" true).fs.lookupFile (pJoin d f) = some c := by
  have hnw : dumpNeedWrite (dumpFs fs d (some f) "") c (dumpFn d (some f) "") = true := by
    simp [dumpNeedWrite, dumpFs, dumpFn, lookupFile_mkdirIfMissing, h0]
  unfold dump_artifact
  rw [if_pos hnw, if_pos rfl]
  refine ⟨rfl, rfl, ?_⟩
  rw [lookupFile_removeFile, if_neg, lookupFile_insertFile]
  · simp [dumpFn]
  · exact hne

theorem dump_artifact_same (fs : FS) (c d f : String) (hex : fsExists fs d = true)
    (h0 : fs.lookupFile (pJoin d f) = some c) :
    (dump_artifact fs c d (some f) "" true).result = Except.ok (pJoin d f) ∧
    (dump_artifact fs c d (some f) "" true).wrote = false ∧
    (dump_artifact fs c d (some f) "" true).fs = fs := by
  have hnw : dumpNeedWrite (dumpFs fs d (some f) "") c (dumpFn d (some f) "") = false := by
    simp [dumpNeedWrite, dumpFs, dumpFn, lookupFile_mkdirIfMissing, h0]
  unfold dump_artifact
  rw [if_neg (by simp [hnw])]
  exact ⟨rfl, rfl, by simp [dumpFs, mkdirIfMissing_of_exists fs d hex]⟩

theorem dump_artifact_diff (fs : FS) (c c2 d f : String)
    (hne : pJoin d f ≠ pJoin d lockName) (h0 : fs.lookupFile (pJoin d f) = some c)
    (hdig : sha1hex c2 ≠ sha1hex c) :
    (dump_artifact fs c2 d (some f) "" true).result = Except.ok (pJoin d f) ∧
    (dump_artifact fs c2 d (some f) "" true).wrote = true ∧
    (dump_artifact fs c2 d (some f) "" true).fs.lookupFile (pJoin d f) = some c2 := by
  have hnw : dumpNeedWrite (dumpFs fs d (some f) "") c2 (dumpFn d (some f) "") = true := by
    simp [dumpNeedWrite, dumpFs, dumpFn, lookupFile_mkdirIfMissing, h0, bne_iff_ne, hdig]
  unfold dump_artifact
  rw [if_pos hnw, if_pos rfl]
  refine ⟨rfl, rfl, ?_⟩
  rw [lookupFile_removeFile, if_neg, lookupFile_insertFile]
  · simp [dumpFn]
  · exact hne

/-- `pJoin` separates the directory from a relative name injectively:
distinct relative names joined to the same directory give distinct
paths. -/
theorem pJoin_ne_of_relative_ne (a b c : String) (hb : ¬sStarts b "/")
    (hc : ¬sStarts c "/") (hbc : b ≠ c) : pJoin a b ≠ pJoin a c := by
  have hb2 : sStarts b "/" = false := by simpa using hb
  have hc2 : sStarts c "/" = false := by simpa using hc
  unfold pJoin
  rw [hb2, hc2]
  simp only [Bool.false_eq_true, if_false]
  intro h
  split at h
  case isTrue hcnd =>
    have hd := congrArg String.data h
    simp only [String.data_append] at hd
    exact hbc (String.ext (List.append_cancel_left hd))
  case isFalse hcnd =>
    have hd := congrArg String.data h
    simp only [String.data_append] at hd
    exact hbc (String.ext (List.append_cancel_left hd))

/-! Lemmas about `listHas` and the inference loops. -/

theorem listHas_eq_mem (l : List String) (x : String) : listHas l x = true ↔ x ∈ l := by
  induction l with
  | nil => simp [listHas]
  | cons a t ih =>
    simp only [listHas, Bool.or_eq_true, decide_eq_true_eq, ih, List.mem_cons]
    exact ⟨fun h => h.elim (fun h2 => Or.inl h2.symm) Or.inr,
           fun h => h.elim (fun h2 => Or.inl h2.symm) Or.inr⟩

theorem listHas_append (l1 l2 : List String) (x : String) :
    listHas (l1 ++ l2) x = (listHas l1 x || listHas l2 x) := by
  induction l1 with
  | nil => simp [listHas]
  | cons a t ih => simp [listHas, ih, Bool.or_assoc]

/-- The playbook phase adds nothing when no wrapped-command value contains
`ansible-playbook`. -/
theorem playbookLoop_no_playbook (o : OsEnv) (fs : FS) (cw : Option String)
    (cmdline acc : List String) (l : List String)
    (h : ∀ c ∈ l, strContains c "ansible-playbook" = false) :
    playbookLoop o fs cw cmdline acc l = Except.ok acc := by
  induction l with
  | nil => rfl
  | cons a t ih =>
    unfold playbookLoop
    rw [h a (List.mem_cons_self a t)]
    simpa using ih (fun c hc => h c (List.mem_cons_of_mem a hc))

/-- The playbook phase propagates an exception of `_get_playbook_path`
as soon as some wrapped-command value contains `ansible-playbook`. -/
theorem playbookLoop_error (o : OsEnv) (fs : FS) (cw : Option String)
    (cmdline acc : List String) (l : List String) (e : Err)
    (hg : get_playbook_path cmdline = Except.error e)
    (hc : ∃ c ∈ l, strContains c "ansible-playbook" = true) :
    playbookLoop o fs cw cmdline acc l = Except.error e := by
  induction l with
  | nil => rcases hc with ⟨c, hmem, _⟩; exact absurd hmem (List.not_mem_nil c)
  | cons a t ih =>
    unfold playbookLoop
    by_cases ha : strContains a "ansible-playbook" = true
    · rw [ha, hg]
      simp
    · have ha2 : strContains a "ansible-playbook" = false := by
        cases hx : strContains a "ansible-playbook"
        · rfl
        · exact absurd hx ha
      rw [ha2]
      simp only [Bool.false_eq_true, if_false]
      rcases hc with ⟨c, hmem, hcc⟩
      rcases List.mem_cons.mp hmem with rfl | hmem2
      · exact absurd hcc ha
      · exact ih ⟨c, hmem2, hcc⟩

/-- `-h`/`--help` anywhere in the original arguments makes the
command-line bind-mount inference a no-op. -/
theorem handle_help_no_mounts (o : OsEnv) (fs : FS) (cfg : Config)
    (args cmdline : List String)
    (hh : listHas cmdline "-h" = true ∨ listHas cmdline "--help" = true) :
    handle_ansible_cmd_options_bind_mounts o fs cfg args cmdline = Except.ok args := by
  cases cmdline with
  | nil => rcases hh with h | h <;> simp [listHas] at h
  | cons a t =>
    unfold handle_ansible_cmd_options_bind_mounts
    rcases hh with h | h <;> simp [h]

/-! # Claim theorems -/

/-- **C1**: the mount-safety check `_ensure_path_safe_to_mount` raises a
`ConfigurationError` exactly when the path, reduced to its containing
directory if it names an existing file and then given a trailing
separator, equals `/`, `/home/` or `/usr/`; for every other existing
directory it returns normally (the check is pure: it has no side
effects on the filesystem or configuration). -/
theorem mount_safety_forbidden_roots (fs : FS) (p : String) :
    (ensure_path_safe_to_mount fs p = Except.error Err.configurationError ↔
      (pJoin (if fs.isFile p then dirname p else p) "" = "/" ∨
       pJoin (if fs.isFile p then dirname p else p) "" = "/home/" ∨
       pJoin (if fs.isFile p then dirname p else p) "" = "/usr/")) ∧
    (fs.isDir p = true → fs.isFile p = false →
      ¬(pJoin p "" = "/" ∨ pJoin p "" = "/home/" ∨ pJoin p "" = "/usr/") →
      ensure_path_safe_to_mount fs p = Except.ok ()) := by
  have main : ∀ q : String,
      ((if (decide (pJoin q "" = "/") || decide (pJoin q "" = "/home/") ||
              decide (pJoin q "" = "/usr/")) = true
        then (Except.error Err.configurationError : Except Err Unit)
        else Except.ok ()) = Except.error Err.configurationError) ↔
        (pJoin q "" = "/" ∨ pJoin q "" = "/home/" ∨ pJoin q "" = "/usr/") := by
    intro q
    split
    case isTrue hc =>
      simp only [Bool.or_eq_true, decide_eq_true_eq] at hc
      exact ⟨fun _ => by tauto, fun _ => rfl⟩
    case isFalse hc =>
      simp only [Bool.or_eq_true, decide_eq_true_eq] at hc
      exact ⟨fun h => Except.noConfusion h, fun h => absurd (by tauto) hc⟩
  constructor
  · unfold ensure_path_safe_to_mount
    by_cases hf : fs.isFile p = true
    · simpa only [hf, if_true] using main (dirname p)
    · have hf2 : fs.isFile p = false := by simpa using hf
      simpa only [hf2, Bool.false_eq_true, if_false] using main p
  · intro _hdir hfile hno
    unfold ensure_path_safe_to_mount
    simp only [hfile, Bool.false_eq_true, if_false]
    rw [if_neg]
    simp only [Bool.or_eq_true, decide_eq_true_eq]
    tauto

/-- Witness for C1 at concrete inputs: an ordinary directory passes, a
forbidden root fails. -/
theorem mount_safety_forbidden_roots_witness :
    ensure_path_safe_to_mount ⟨[], ["/data"]⟩ "/data" = Except.ok () ∧
    ensure_path_safe_to_mount ⟨[], []⟩ "/usr" = Except.error Err.configurationError := by
  constructor
  · exact (mount_safety_forbidden_roots ⟨[], ["/data"]⟩ "/data").2
      (by decide) (by decide) (by decide)
  · exact (mount_safety_forbidden_roots ⟨[], []⟩ "/usr").1.mpr (by decide)

/-- **C5**: `_generate_container_auth_dir` returns the temp directory as
the credential path for the docker engine, and the `auth.json` file
inside that directory for the podman engine (and that file does exist in
the resulting filesystem). -/
theorem auth_dir_engine_paths (fs : FS) (auth : AuthData) (ident tmp : String) :
    (generate_container_auth_dir fs auth ident "docker" tmp).2.1 = tmp ∧
    (generate_container_auth_dir fs auth ident "podman" tmp).2.1 = pJoin tmp "auth.json" ∧
    ((generate_container_auth_dir fs auth ident "podman" tmp).1.lookupFile
        (pJoin tmp "auth.json")).isSome = true := by
  refine ⟨rfl, rfl, ?_⟩
  have hne2 : ¬(pJoin tmp "auth.json" = pJoin tmp "registries.conf") :=
    pJoin_ne_of_relative_ne tmp "auth.json" "registries.conf"
      (by decide) (by decide) (by decide)
  unfold generate_container_auth_dir
  by_cases hv : auth.verify_ssl = some false
  · simp [lookupFile_insertFile, hne2, hv]
  · simp [lookupFile_insertFile, hv]

/-- **C9**: whenever the guarded conditional write of `dump_artifact`
runs, whether it completes or the write raises, the lock sentinel
`<dir>/.artifact_write_lock` is absent from the resulting filesystem. -/
theorem lock_sentinel_removed (fs : FS) (obj path : String) (filename : Option String)
    (fresh : String) (writeOk : Bool)
    (h : (dump_artifact fs obj path filename fresh writeOk).wrote = true ∨
         (dump_artifact fs obj path filename fresh writeOk).result = Except.error Err.ioError) :
    (dump_artifact fs obj path filename fresh writeOk).fs.lookupFile
      (pJoin path lockName) = none := by
  revert h
  unfold dump_artifact
  split
  · split
    · intro _
      simp [lookupFile_removeFile]
    · intro _
      simp [lookupFile_removeFile]
  · intro h
    rcases h with h | h <;> simp at h

/-- Witness for C9: a concrete completed guarded write leaves no lock
sentinel behind. -/
theorem lock_sentinel_removed_witness :
    (dump_artifact ⟨[], ["/d"]⟩ "x" "/d" (some "f") "" true).fs.lookupFile
      (pJoin "/d" lockName) = none :=
  lock_sentinel_removed ⟨[], ["/d"]⟩ "x" "/d" (some "f") "" true (Or.inl rfl)

/-- **C2 counterexample**: the claim "dump_artifact(C, d, f) when no file
exists at d/f writes C to d/f" fails for the filename
`.artifact_write_lock`: the artifact path then coincides with the lock
sentinel, and the `finally` clause removes the freshly written file, so
the returned path names a file that does not exist afterwards. -/
theorem dump_artifact_lock_filename_cex :
    (dump_artifact ⟨[], ["/data/env"]⟩ "x" "/data/env"
        (some ".artifact_write_lock") "" true).result =
      Except.ok "/data/env/.artifact_write_lock" ∧
    (dump_artifact ⟨[], ["/data/env"]⟩ "x" "/data/env"
        (some ".artifact_write_lock") "" true).fs.lookupFile
      "/data/env/.artifact_write_lock" = none := by
  constructor <;> rfl

/-- **C2 (amended)**: for every filename other than the lock sentinel
name, `dump_artifact` writes fresh content, is a no-op on identical
content, and overwrites when the SHA-1 digests differ; the returned path
is always `os.path.join(d, f)`. -/
theorem dump_artifact_idempotent_writes :
    (∀ (fs : FS) (c d f : String), pJoin d f ≠ pJoin d lockName →
      fs.lookupFile (pJoin d f) = none →
      (dump_artifact fs c d (some f) "" true).result = Except.ok (pJoin d f) ∧
      (dump_artifact fs c d (some f) "" true).wrote = true ∧
      (dump_artifact fs c d (some f) "" true).fs.lookupFile (pJoin d f) = some c) ∧
    (∀ (fs : FS) (c d f : String), fsExists fs d = true →
      fs.lookupFile (pJoin d f) = some c →
      (dump_artifact fs c d (some f) "" true).result = Except.ok (pJoin d f) ∧
      (dump_artifact fs c d (some f) "" true).wrote = false ∧
      (dump_artifact fs c d (some f) "" true).fs = fs) ∧
    (∀ (fs : FS) (c c2 d f : String), pJoin d f ≠ pJoin d lockName →
      fs.lookupFile (pJoin d f) = some c → sha1hex c2 ≠ sha1hex c →
      (dump_artifact fs c2 d (some f) "" true).result = Except.ok (pJoin d f) ∧
      (dump_artifact fs c2 d (some f) "" true).wrote = true ∧
      (dump_artifact fs c2 d (some f) "" true).fs.lookupFile (pJoin d f) = some c2) := by
  exact ⟨dump_artifact_fresh, dump_artifact_same, dump_artifact_diff⟩

/-- Witness for the amended C2 at concrete inputs: fresh write, identical
rewrite as no-op, digest-different overwrite. -/
theorem dump_artifact_idempotent_writes_witness :
    (dump_artifact ⟨[], ["/d"]⟩ "ping" "/d" (some "cmdline") "" true).fs.lookupFile
        (pJoin "/d" "cmdline") = some "ping" ∧
    (dump_artifact ⟨[("/d/cmdline", "ping")], ["/d"]⟩ "ping" "/d" (some "cmdline") "" true).fs =
      ⟨[("/d/cmdline", "ping")], ["/d"]⟩ ∧
    (dump_artifact ⟨[("/d/cmdline", "ping")], ["/d"]⟩ "pong" "/d" (some "cmdline") "" true).fs.lookupFile
        (pJoin "/d" "cmdline") = some "pong" :=
  ⟨(dump_artifact_idempotent_writes.1 ⟨[], ["/d"]⟩ "ping" "/d" "cmdline"
      (by decide) (by decide)).2.2,
   (dump_artifact_idempotent_writes.2.1 ⟨[("/d/cmdline", "ping")], ["/d"]⟩ "ping" "/d" "cmdline"
      (by decide) (by decide)).2.2,
   (dump_artifact_idempotent_writes.2.2 ⟨[("/d/cmdline", "ping")], ["/d"]⟩ "ping" "pong" "/d" "cmdline"
      (by decide) (by decide) (by decide)).2.2⟩

/-- **C7 counterexample**: for the empty content, the anonymous-artifact
call performs no write at all: the file freshly created by `mkstemp` is
empty, both SHA-1 digests equal the digest of `""`, and the guarded
write is skipped (`wrote = false`), contradicting "always performs the
write ... for every content including the empty string". -/
theorem anonymous_artifact_empty_content_cex :
    (dump_artifact ⟨[], ["/d"]⟩ "" "/d" none "tmpw4x9" true).wrote = false ∧
    (dump_artifact ⟨[], ["/d"]⟩ "" "/d" none "tmpw4x9" true).result =
      Except.ok "/d/tmpw4x9" := by
  constructor <;> rfl

/-- **C7 (amended)**: `dump_artifact(C, d, None)` places the artifact at
the `mkstemp`-generated name and performs the guarded write exactly when
the SHA-1 digest of `C` differs from the digest of the empty string (the
`mkstemp` file starts empty); in particular the write is skipped for
`C = ""`, though the file then already holds the empty content. -/
theorem anonymous_artifact_write_condition (fs : FS) (obj d fresh : String)
    (_hfresh : fs.lookupFile (pJoin d fresh) = none)
    (hne : pJoin d fresh ≠ pJoin d lockName) :
    (dump_artifact fs obj d none fresh true).result = Except.ok (pJoin d fresh) ∧
    (dump_artifact fs obj d none fresh true).wrote = (sha1hex obj != sha1hex "") ∧
    (dump_artifact fs obj d none fresh true).fs.lookupFile (pJoin d fresh) =
      some (if sha1hex obj = sha1hex "" then "" else obj) := by
  have hlook : (dumpFs fs d none fresh).lookupFile (dumpFn d none fresh) = some "" := by
    simp [dumpFs, dumpFn, lookupFile_insertFile]
  have hnw : dumpNeedWrite (dumpFs fs d none fresh) obj (dumpFn d none fresh) =
      (sha1hex obj != sha1hex "") := by
    simp [dumpNeedWrite, hlook]
  by_cases hdig : sha1hex obj = sha1hex ""
  · have hnw2 : dumpNeedWrite (dumpFs fs d none fresh) obj (dumpFn d none fresh) = false := by
      simp [hnw, hdig]
    unfold dump_artifact
    rw [if_neg (by simp [hnw2])]
    refine ⟨rfl, by rw [hnw2] at hnw; show false = _; exact hnw, ?_⟩
    rw [if_pos hdig]
    simpa [dumpFn] using hlook
  · have hnw2 : dumpNeedWrite (dumpFs fs d none fresh) obj (dumpFn d none fresh) = true := by
      simp [hnw, bne_iff_ne, hdig]
    unfold dump_artifact
    rw [if_pos hnw2, if_pos rfl]
    refine ⟨rfl, by simp [bne_iff_ne, hdig], ?_⟩
    rw [lookupFile_removeFile, if_neg, lookupFile_insertFile]
    · simp [dumpFn, hdig]
    · exact hne

/-- Witness for the amended C7: a nonempty content is written to the
generated name. -/
theorem anonymous_artifact_write_condition_witness :
    (dump_artifact ⟨[], ["/d"]⟩ "key" "/d" none "tmpz" true).fs.lookupFile
      (pJoin "/d" "tmpz") = some "key" := by
  have h := (anonymous_artifact_write_condition ⟨[], ["/d"]⟩ "key" "/d" "tmpz"
    (by decide) (by decide)).2.2
  rw [h, if_neg (by decide)]

/-- `os.path.join(a, s) = s` for an absolute `s`. -/
theorem pJoin_of_abs (a s : String) (h : isAbs s = true) : pJoin a s = s := by
  unfold isAbs at h
  unfold pJoin
  rw [if_pos h]

/-- **C6 counterexample**: an absolute inventory path string that does
not exist is not left untouched: `os.path.join(inventory_dir, obj)`
returns the absolute `obj` itself, the existence check fails, and the
string is written as the content of `inventory/hosts`, with
`config.inventory` repointed at that file. -/
theorem inventory_absolute_nonexistent_cex :
    dump_artifacts_inventory ⟨[], []⟩ (some (Inv.str "/abs/hosts")) "/pdd" true =
      Except.ok (⟨[("/pdd/inventory/hosts", "/abs/hosts")], ["/pdd/inventory"]⟩,
        some (Inv.str "/pdd/inventory/hosts")) := rfl

/-- **C6 (amended)**: with an inventory set, a (nonempty) mapping is
JSON-serialized to `inventory/hosts.json`; a string naming a path that
does not exist under `inventory/` (after `os.path.join`) is written as
the content of `inventory/hosts`; a string naming an existing relative
path is kept as a reference to that relative location (stored joined to
the inventory directory); an absolute string naming an existing path is
left untouched. -/
theorem dump_artifacts_inventory_cases :
    (∀ (fs : FS) (m : List (String × String)) (pdd : String), m ≠ [] →
      fs.lookupFile (pJoin (pJoin pdd "inventory") "hosts.json") = none →
      invOut (dump_artifacts_inventory fs (some (Inv.map m)) pdd true) =
        some (Inv.str (pJoin (pJoin pdd "inventory") "hosts.json")) ∧
      (fsOut (dump_artifacts_inventory fs (some (Inv.map m)) pdd true)).lookupFile
        (pJoin (pJoin pdd "inventory") "hosts.json") = some (jsonDumpsFlat m)) ∧
    (∀ (fs : FS) (st pdd : String), st ≠ "" →
      fsExists fs (pJoin (pJoin pdd "inventory") st) = false →
      fs.lookupFile (pJoin (pJoin pdd "inventory") "hosts") = none →
      invOut (dump_artifacts_inventory fs (some (Inv.str st)) pdd true) =
        some (Inv.str (pJoin (pJoin pdd "inventory") "hosts")) ∧
      (fsOut (dump_artifacts_inventory fs (some (Inv.str st)) pdd true)).lookupFile
        (pJoin (pJoin pdd "inventory") "hosts") = some st) ∧
    (∀ (fs : FS) (st pdd : String), st ≠ "" → isAbs st = false →
      fsExists fs (pJoin (pJoin pdd "inventory") st) = true →
      dump_artifacts_inventory fs (some (Inv.str st)) pdd true =
        Except.ok (fs, some (Inv.str (pJoin (pJoin pdd "inventory") st)))) ∧
    (∀ (fs : FS) (st pdd : String), st ≠ "" → isAbs st = true →
      fsExists fs st = true →
      dump_artifacts_inventory fs (some (Inv.str st)) pdd true =
        Except.ok (fs, some (Inv.str st))) := by
  refine ⟨?_, ?_, ?_, ?_⟩
  · intro fs m pdd hm h0
    have hm2 : m.isEmpty = false := by
      cases m with
      | nil => exact absurd rfl hm
      | cons a t => rfl
    have hne := pJoin_ne_of_relative_ne (pJoin pdd "inventory") "hosts.json" lockName
      (by decide) (by decide) (by decide)
    have h := dump_artifact_fresh fs (jsonDumpsFlat m) (pJoin pdd "inventory")
      "hosts.json" hne h0
    unfold dump_artifacts_inventory
    simp [invTruthy, isinventory, hm2, h.1, h.2.2, invOut, fsOut]
  · intro fs st pdd hst hnx h0
    have hne := pJoin_ne_of_relative_ne (pJoin pdd "inventory") "hosts" lockName
      (by decide) (by decide) (by decide)
    have h := dump_artifact_fresh fs st (pJoin pdd "inventory") "hosts" hne h0
    unfold dump_artifacts_inventory
    simp [invTruthy, isinventory, hst, hnx, h.1, h.2.2, invOut, fsOut]
  · intro fs st pdd hst habs hex
    unfold dump_artifacts_inventory
    simp [invTruthy, isinventory, hst, hex, habs]
  · intro fs st pdd hst habs hex
    unfold dump_artifacts_inventory
    simp [invTruthy, isinventory, hst, hex, habs,
      pJoin_of_abs (pJoin pdd "inventory") st habs]

/-- Witness for the amended C6 at concrete inputs (mapping, fresh string,
existing relative string, existing absolute string). -/
theorem dump_artifacts_inventory_cases_witness :
    invOut (dump_artifacts_inventory ⟨[], []⟩ (some (Inv.map [("foo", "bar")])) "/pdd" true) =
      some (Inv.str (pJoin (pJoin "/pdd" "inventory") "hosts.json")) ∧
    invOut (dump_artifacts_inventory ⟨[], []⟩ (some (Inv.str "myhosts")) "/pdd" true) =
      some (Inv.str (pJoin (pJoin "/pdd" "inventory") "hosts")) ∧
    dump_artifacts_inventory ⟨[("/pdd/inventory/myhosts", "h")], []⟩
        (some (Inv.str "myhosts")) "/pdd" true =
      Except.ok (⟨[("/pdd/inventory/myhosts", "h")], []⟩,
        some (Inv.str (pJoin (pJoin "/pdd" "inventory") "myhosts"))) ∧
    dump_artifacts_inventory ⟨[("/abs/hosts", "h")], []⟩
        (some (Inv.str "/abs/hosts")) "/pdd" true =
      Except.ok (⟨[("/abs/hosts", "h")], []⟩, some (Inv.str "/abs/hosts")) :=
  ⟨(dump_artifacts_inventory_cases.1 ⟨[], []⟩ [("foo", "bar")] "/pdd"
      (by decide) (by decide)).1,
   (dump_artifacts_inventory_cases.2.1 ⟨[], []⟩ "myhosts" "/pdd"
      (by decide) (by decide) (by decide)).1,
   dump_artifacts_inventory_cases.2.2.1 ⟨[("/pdd/inventory/myhosts", "h")], []⟩
      "myhosts" "/pdd" (by decide) (by decide) (by decide),
   dump_artifacts_inventory_cases.2.2.2 ⟨[("/abs/hosts", "h")], []⟩
      "/abs/hosts" "/pdd" (by decide) (by decide) (by decide)⟩

/-- **C3**: planning the same mount twice within one invocation — two
`_update_volume_mount_paths` calls whose formatted `"<src>:<dst>[:label]"`
strings coincide — appends exactly one `-v <formatted>` flag pair: the
first call appends it (when not already present), the second call leaves
the accumulated argument list unchanged. -/
theorem mount_planning_idempotent (o : OsEnv) (fs : FS) (cw : Option String)
    (args : List String) (s1 d1 l1 s2 d2 l2 : Option String) (v : String)
    (h1 : formatMount o fs cw s1 d1 l1 = Except.ok (some v))
    (h2 : formatMount o fs cw s2 d2 l2 = Except.ok (some v))
    (hv : listHas args v = false) :
    update_volume_mount_paths o fs cw args s1 d1 l1 = Except.ok (args ++ ["-v", v]) ∧
    update_volume_mount_paths o fs cw (args ++ ["-v", v]) s2 d2 l2 =
      Except.ok (args ++ ["-v", v]) := by
  constructor
  · unfold update_volume_mount_paths
    rw [h1]
    simp [hv]
  · unfold update_volume_mount_paths
    rw [h2]
    have hin : listHas (args ++ ["-v", v]) v = true := by
      rw [listHas_append]
      simp [listHas]
    simp [hin]

/-- Witness for C3: mounting `/data` twice yields one `-v /data/:/data/`
pair. -/
theorem mount_planning_idempotent_witness :
    update_volume_mount_paths ⟨"/", 0, [], []⟩ ⟨[], ["/data"]⟩ none []
        (some "/data") none none = Except.ok ["-v", "/data/:/data/"] ∧
    update_volume_mount_paths ⟨"/", 0, [], []⟩ ⟨[], ["/data"]⟩ none ["-v", "/data/:/data/"]
        (some "/data") none none = Except.ok ["-v", "/data/:/data/"] :=
  mount_planning_idempotent ⟨"/", 0, [], []⟩ ⟨[], ["/data"]⟩ none []
    (some "/data") none none (some "/data") none none "/data/:/data/"
    (by decide) (by decide) (by decide)

/-- For an existing plain file whose expansion is itself and whose
directory is a safe mount point, `formatMount` yields the
directory-granular `"<dir>/:<dir>/"` string. -/
theorem formatMount_file (o : OsEnv) (fs : FS) (cw : Option String) (value : String)
    (hf : fs.isFile value = true) (hd : fs.isDir value = false)
    (hexp : abspath o (expanduser o (expandvars o value)) = value)
    (hsafe : ensure_path_safe_to_mount fs (pJoin (dirname value) "") = Except.ok ()) :
    formatMount o fs cw (some value) none none =
      Except.ok (some (pJoin (dirname value) "" ++ ":" ++ pJoin (dirname value) "")) := by
  have hex : fsExists fs value = true := by simp [fsExists, hf]
  unfold formatMount
  simp only [hex, Bool.not_true, Bool.false_eq_true, if_false, hexp, hd]
  rw [hsafe]

/-- **C8**: in command-line path inference, a recognized inventory flag
whose value token ends with a comma plans no mount for that value, while
`-i <existing file>` plans a mount for the file's directory. -/
theorem inventory_value_mount_inference :
    (∀ (o : OsEnv) (fs : FS) (cfg : Config) (args : List String) (flag value : String),
      listHas inventory_file_options flag = true → sEnds value "," = true →
      (∀ c ∈ cfg.command, strContains c "ansible-playbook" = false) →
      handle_ansible_cmd_options_bind_mounts o fs cfg args [flag, value] =
        Except.ok args) ∧
    (∀ (o : OsEnv) (fs : FS) (cfg : Config) (args : List String) (value : String),
      (∀ c ∈ cfg.command, strContains c "ansible-playbook" = false) →
      value ≠ "-h" → value ≠ "--help" →
      listHas optional_mount_args value = false →
      sEnds value "," = false →
      fs.isFile value = true → fs.isDir value = false →
      abspath o (expanduser o (expandvars o value)) = value →
      ensure_path_safe_to_mount fs (pJoin (dirname value) "") = Except.ok () →
      listHas args (pJoin (dirname value) "" ++ ":" ++ pJoin (dirname value) "") = false →
      handle_ansible_cmd_options_bind_mounts o fs cfg args ["-i", value] =
        Except.ok (args ++
          ["-v", pJoin (dirname value) "" ++ ":" ++ pJoin (dirname value) ""])) := by
  constructor
  · intro o fs cfg args flag value hflag hcomma hcmd
    have hvh : value ≠ "-h" := by
      intro h; subst h; exact absurd hcomma (by decide)
    have hvhelp : value ≠ "--help" := by
      intro h; subst h; exact absurd hcomma (by decide)
    have hvopt : listHas optional_mount_args value = false := by
      cases hx : listHas optional_mount_args value
      · rfl
      · exfalso
        have hmem := (listHas_eq_mem _ _).mp hx
        simp only [optional_mount_args, inventory_file_options, vault_file_options,
          private_key_file_options, List.append_assoc, List.cons_append, List.nil_append,
          List.mem_cons, List.not_mem_nil, or_false] at hmem
        rcases hmem with rfl | rfl | rfl | rfl | rfl | rfl | rfl <;>
          exact absurd hcomma (by decide)
    have main : ∀ flag2 : String, listHas optional_mount_args flag2 = true →
        listHas inventory_file_options flag2 = true → flag2 ≠ "-h" → flag2 ≠ "--help" →
        handle_ansible_cmd_options_bind_mounts o fs cfg args [flag2, value] =
          Except.ok args := by
      intro flag2 hopt hinv hfh hfhelp
      have hgate : (listHas [flag2, value] "-h" || listHas [flag2, value] "--help") = false := by
        simp [listHas, hvh, hvhelp, hfh, hfhelp]
      unfold handle_ansible_cmd_options_bind_mounts
      rw [if_neg (by simp), if_neg (by simp [hgate])]
      rw [playbookLoop_no_playbook o fs cfg.container_workdir _ args cfg.command hcmd]
      simp [optionLoop, pyIndexOf, hopt, hinv, hcomma, hvopt, List.eraseIdx]
    have hflag3 := (listHas_eq_mem _ _).mp hflag
    simp only [inventory_file_options, List.mem_cons, List.not_mem_nil, or_false] at hflag3
    rcases hflag3 with rfl | rfl | rfl <;>
      exact main _ (by decide) (by decide) (by decide) (by decide)
  · intro o fs cfg args value hcmd hvh hvhelp hvopt hcomma hf hd hexp hsafe hnotin
    have hfm := formatMount_file o fs cfg.container_workdir value hf hd hexp hsafe
    have hgate : (listHas ["-i", value] "-h" || listHas ["-i", value] "--help") = false := by
      simp [listHas, hvh, hvhelp]
    unfold handle_ansible_cmd_options_bind_mounts
    rw [if_neg (by simp), if_neg (by simp [hgate])]
    rw [playbookLoop_no_playbook o fs cfg.container_workdir _ args cfg.command hcmd]
    simp [optionLoop, pyIndexOf, hcomma, hvopt, List.eraseIdx,
      update_volume_mount_paths, hfm, hnotin,
      (by decide : listHas optional_mount_args "-i" = true),
      (by decide : listHas inventory_file_options "-i" = true)]

/-- Witness for C8: a comma-terminated host list plans no mount; an
existing `-i /w/inv.yml` plans a mount of `/w/`. -/
theorem inventory_value_mount_inference_witness :
    handle_ansible_cmd_options_bind_mounts osDemo fsDemo
        { cfgDemo with command := ["ansible"] } ["A"] ["-i", "host1,host2,"] =
      Except.ok ["A"] ∧
    handle_ansible_cmd_options_bind_mounts osDemo fsDemo
        { cfgDemo with command := ["ansible"] } ["A"] ["-i", "/w/inv.yml"] =
      Except.ok (["A"] ++
        ["-v", pJoin (dirname "/w/inv.yml") "" ++ ":" ++ pJoin (dirname "/w/inv.yml") ""]) :=
  ⟨inventory_value_mount_inference.1 osDemo fsDemo { cfgDemo with command := ["ansible"] }
      ["A"] "-i" "host1,host2," (by decide) (by decide) (by decide),
   inventory_value_mount_inference.2 osDemo fsDemo { cfgDemo with command := ["ansible"] }
      ["A"] "/w/inv.yml" (by decide) (by decide) (by decide) (by decide) (by decide)
      (by decide) (by decide) (by decide) (by decide) (by decide)⟩

/-- **C4 counterexample**: with `-h` among the original arguments, the
automount pass still runs: the built argument vector contains the
`-v /ssh/:/ssh/` automount pair, so not all automatic mounting is
suppressed. -/
theorem help_flag_automounts_cex :
    listHas ["-h"] "-h" = true ∧
    listHas (okArgs (default_args osDemo fsDemo cfgDemo ["ansible-playbook", "play.yml"]
        ExecMode.ANSIBLE_COMMANDS ["-h"] "/tmp/auth")) "/ssh/:/ssh/" = true ∧
    listHas (okArgs (default_args osDemo fsDemo cfgDemo ["ansible-playbook", "play.yml"]
        ExecMode.ANSIBLE_COMMANDS ["-h"] "/tmp/auth")) "-v" = true := by
  exact ⟨rfl, rfl, rfl⟩

/-- **C4 (amended)**: `-h`/`--help` anywhere in the original argument
list suppresses exactly the command-line-inferred mounts — the
bind-mount inference adds nothing, and the whole `ANSIBLE_COMMANDS`
build coincides with the `GENERIC_COMMANDS` build (automounts and every
other step unaffected). -/
theorem help_flag_suppresses_cmdline_mounts (o : OsEnv) (fs : FS) (cfg : Config)
    (bargs cmdline : List String) (authTmp : String)
    (hh : listHas cmdline "-h" = true ∨ listHas cmdline "--help" = true) :
    (∀ (cfg2 : Config) (args : List String),
      handle_ansible_cmd_options_bind_mounts o fs cfg2 args cmdline = Except.ok args) ∧
    default_args o fs cfg bargs ExecMode.ANSIBLE_COMMANDS cmdline authTmp =
      default_args o fs cfg bargs ExecMode.GENERIC_COMMANDS cmdline authTmp := by
  have hrw : ∀ (cfg2 : Config) (args2 : List String),
      handle_ansible_cmd_options_bind_mounts o fs cfg2 args2 cmdline = Except.ok args2 :=
    fun cfg2 args2 => handle_help_no_mounts o fs cfg2 args2 cmdline hh
  refine ⟨hrw, ?_⟩
  unfold default_args
  simp [cmdOptionsStep, hrw]

/-- Witness for the amended C4 at concrete inputs. -/
theorem help_flag_suppresses_cmdline_mounts_witness :
    handle_ansible_cmd_options_bind_mounts osDemo fsDemo cfgDemo ["A"] ["-h"] =
      Except.ok ["A"] ∧
    default_args osDemo fsDemo cfgDemo ["ansible-playbook", "play.yml"]
        ExecMode.ANSIBLE_COMMANDS ["-h"] "/tmp/auth" =
      default_args osDemo fsDemo cfgDemo ["ansible-playbook", "play.yml"]
        ExecMode.GENERIC_COMMANDS ["-h"] "/tmp/auth" :=
  ⟨(help_flag_suppresses_cmdline_mounts osDemo fsDemo cfgDemo [] ["-h"] "/tmp/auth"
      (Or.inl rfl)).1 cfgDemo ["A"],
   (help_flag_suppresses_cmdline_mounts osDemo fsDemo cfgDemo
      ["ansible-playbook", "play.yml"] ["-h"] "/tmp/auth" (Or.inl rfl)).2⟩

/-! Lemmas for C10: a command line consisting solely of inventory
flag/value pairs empties the book-keeping copy of
`_get_playbook_path`, whose final `copy[0]` access then raises
IndexError. -/

theorem gppLoop_pairs : ∀ (pairs : List (String × String)),
    (∀ p ∈ pairs, listHas inventory_file_options p.1 = true ∧
      listHas inventory_file_options p.2 = false) →
    gppLoop ((pairs.map (fun p => [p.1, p.2])).flatten)
      ((pairs.map (fun p => [p.1, p.2])).flatten) = Except.ok (some []) := by
  intro pairs
  induction pairs with
  | nil => intro _; rfl
  | cons pr rest ih =>
    intro h
    have h1 := (h pr (List.mem_cons_self pr rest)).1
    have h2 := (h pr (List.mem_cons_self pr rest)).2
    have ih2 := ih (fun p hp => h p (List.mem_cons_of_mem pr hp))
    simp only [List.map_cons, List.flatten_cons, List.cons_append, List.nil_append] at *
    unfold gppLoop
    simp only [h1, if_true, pyIndexOf]
    simp [gppLoop, h2, ih2, List.eraseIdx]

theorem get_playbook_path_pairs (pairs : List (String × String))
    (hpairs : ∀ p ∈ pairs, listHas inventory_file_options p.1 = true ∧
      listHas inventory_file_options p.2 = false) :
    get_playbook_path ((pairs.map (fun p => [p.1, p.2])).flatten) =
      Except.error Err.indexError := by
  unfold get_playbook_path
  rw [gppLoop_pairs pairs hpairs]
  rfl

theorem handle_pairs_error (o : OsEnv) (fs : FS) (cfg : Config)
    (args : List String) (pairs : List (String × String)) (tokens : List String)
    (htok : tokens = (pairs.map (fun p => [p.1, p.2])).flatten)
    (hpairs : ∀ p ∈ pairs, listHas inventory_file_options p.1 = true ∧
      listHas inventory_file_options p.2 = false)
    (hne : pairs ≠ [])
    (hnh : listHas tokens "-h" = false) (hnhelp : listHas tokens "--help" = false)
    (hcmd : ∃ c ∈ cfg.command, strContains c "ansible-playbook" = true) :
    handle_ansible_cmd_options_bind_mounts o fs cfg args tokens =
      Except.error Err.indexError := by
  have hg : get_playbook_path tokens = Except.error Err.indexError := by
    rw [htok]; exact get_playbook_path_pairs pairs hpairs
  cases hp : pairs with
  | nil => exact absurd hp hne
  | cons pr rest =>
    have htok2 : tokens = pr.1 :: pr.2 :: ((rest.map (fun p => [p.1, p.2])).flatten) := by
      rw [htok, hp]; simp
    unfold handle_ansible_cmd_options_bind_mounts
    rw [if_neg (by rw [htok2]; simp), if_neg (by simp [hnh, hnhelp])]
    rw [playbookLoop_error o fs cfg.container_workdir tokens args cfg.command
      Err.indexError hg hcmd]

/-- **C10**: when the wrapped command contains `ansible-playbook`,
`-h`/`--help` is absent, and the original argument list consists solely
of recognized inventory flag/value pairs (every token is consumed), the
whole invocation build raises an uncaught IndexError — not a
ConfigurationError and not a silent skip. -/
theorem playbook_inference_index_error (o : OsEnv) (fs : FS) (cfg : Config)
    (bargs : List String) (authTmp : String) (pairs : List (String × String))
    (tokens : List String)
    (htok : tokens = (pairs.map (fun p => [p.1, p.2])).flatten)
    (hpairs : ∀ p ∈ pairs, listHas inventory_file_options p.1 = true ∧
      listHas inventory_file_options p.2 = false)
    (hne : pairs ≠ [])
    (hnh : listHas tokens "-h" = false) (hnhelp : listHas tokens "--help" = false)
    (hcmd : ∃ c ∈ cfg.command, strContains c "ansible-playbook" = true)
    (hwd : truthyOptStr cfg.container_workdir = true) :
    default_args o fs cfg bargs ExecMode.ANSIBLE_COMMANDS tokens authTmp =
      Except.error Err.indexError := by
  have hh : ∀ (cfg2 : Config) (args2 : List String), cfg2.command = cfg.command →
      handle_ansible_cmd_options_bind_mounts o fs cfg2 args2 tokens =
        Except.error Err.indexError := by
    intro cfg2 args2 hcc
    exact handle_pairs_error o fs cfg2 args2 pairs tokens htok hpairs hne hnh hnhelp
      (by rw [hcc]; exact hcmd)
  unfold default_args
  simp [cmdOptionsStep, hwd, hh, Bind.bind, Except.bind, Functor.map, Except.map,
    Pure.pure, Except.pure]

/-- Witness for C10: `cmdline_args = ["-i", "hosts"]` with an
`ansible-playbook` wrapped command crashes the build with IndexError. -/
theorem playbook_inference_index_error_witness :
    default_args osDemo fsDemo { cfgDemo with container_workdir := some "/cw" }
      [] ExecMode.ANSIBLE_COMMANDS ["-i", "hosts"] "/tmp/auth" =
      Except.error Err.indexError :=
  playbook_inference_index_error osDemo fsDemo
    { cfgDemo with container_workdir := some "/cw" } [] "/tmp/auth"
    [("-i", "hosts")] ["-i", "hosts"] rfl (by decide) (by decide) rfl rfl
    (by decide) rfl

end AnsibleRunner
